import Mathlib

/-!
Shallow embedding of the Oceanic VEO250 download protocol
(`src/oceanic_veo250.c` of libdivecomputer): the frame-transfer state
machine with ACK/NAK retry, checksum validation, the handshake, the
packetized read loop, dump, close, and the backend type dispatch.

The serial transport is modelled as a script of read events: each call to
`serial_read` consumes the next event, which carries the `int` return value
and the bytes placed into the caller's buffer.  Writes never modify the
script (the device's answers are pre-scripted); every command written is
collected in a log so that theorems can speak about the number and content
of the sends.  An exhausted script behaves like a transport read failing
with -1.
-/

/-- A byte, kept as a `Nat`; the embedding takes values `% 256` where the C
performs 8-bit truncation. -/
abbrev Byte := Nat

/-- The `device_status_t` values used by `oceanic_veo250.c`
(`DEVICE_STATUS_SUCCESS`, `..._ERROR`, `..._TYPE_MISMATCH`, `..._IO`,
`..._TIMEOUT`, `..._PROTOCOL`, `..._MEMORY`). -/
inductive DeviceStatus where
  | success
  | error
  | typeMismatch
  | io
  | timeout
  | protocol
  | memory
deriving DecidableEq, Repr

/-- One scripted `serial_read`: `ret` is the `int` return value, `data` the
bytes the transport places into the destination buffer. -/
structure ReadEvent where
  ret : Int
  data : List Byte
deriving DecidableEq, Repr

/-- The serial port: the pending read script plus whether the (ignored)
write/drain calls would succeed and whether `serial_close` succeeds. -/
structure Transport where
  reads : List ReadEvent
  writeOk : Bool
  closeOk : Bool
deriving DecidableEq, Repr

/-- `MAXRETRIES` of `oceanic_veo250.c`. -/
def MAXRETRIES : Nat := 2

/-- `ACK` (0x5A). -/
def ACK : Byte := 0x5A

/-- `NAK` (0xA5); doubles as the answer-frame terminator sentinel. -/
def NAK : Byte := 0xA5

/-- Modelled from the spec: `oceanic_veo250.h` is not under `src/`, and the
spec lists `PACKET_SIZE` only as the device-specific packet framing unit; we
fix the representative value 16. -/
def PACKET_SIZE : Nat := 16

/-- Modelled from the spec: `oceanic_veo250.h` is not under `src/`; the
spec lists `MEMORY_SIZE` as the device-specific total addressable size.  It
must be a multiple of `PACKET_SIZE` (dump forwards it to the read operation,
whose alignment assertion requires it); we fix the representative value
0x8000. -/
def MEMORY_SIZE : Nat := 0x8000

/-- The `EXITCODE` macro: `rc == -1 ? DEVICE_STATUS_IO :
DEVICE_STATUS_TIMEOUT`. -/
def EXITCODE (rc : Int) : DeviceStatus :=
  if rc = -1 then DeviceStatus.io else DeviceStatus.timeout

/-- Modelled from the spec: `checksum.c` is not under `src/`; §4.1 defines
`checksum(bytes, seed)` as the sum of all bytes plus the seed, truncated to
8 bits. -/
def checksum_add_uint8 (data : List Byte) (seed : Byte) : Byte :=
  (seed + data.sum) % 256

/-- `oceanic_veo250_send`: writes the command and drains; the results of
`serial_write` and `serial_drain` are not inspected, so the function always
reports `DEVICE_STATUS_SUCCESS`.  Returns (status, port, write log). -/
def oceanic_veo250_send (t : Transport) (command : List Byte) :
    DeviceStatus × Transport × List (List Byte) :=
  (DeviceStatus.success, t, [command])

/-- One iteration of the acknowledgement retry loop of
`oceanic_veo250_transfer` when the C test `nretries++ >= MAXRETRIES` is
about to hit (the loop will `break` right after the read): send the command
(write result discarded) and read 1 acknowledgement byte, exiting the loop
with whatever byte arrived. -/
def ackStepLast (command : List Byte) (response : Byte) (t : Transport) :
    (DeviceStatus ⊕ Byte) × Transport × List (List Byte) :=
  if response = NAK then
    match t.reads with
    | [] => (Sum.inl (EXITCODE (-1)), t, [command])
    | e :: rest =>
      let t1 : Transport := { t with reads := rest }
      if e.ret = 1 then
        (Sum.inr (e.data.headD response), t1, [command])
      else
        (Sum.inl (EXITCODE e.ret), t1, [command])
  else
    (Sum.inr response, t, [])

/-- The acknowledgement retry loop of `oceanic_veo250_transfer`
(`while (response == NAK) { send; read 1; if (nretries++ >= MAXRETRIES)
break; }`).  `fuel` stands for `MAXRETRIES + 1 - nretries`, so the C test
`nretries++ >= MAXRETRIES` is `fuel ≤ 1` (the iteration still sends and
reads, then breaks: `ackStepLast`); the initial call uses
`fuel = MAXRETRIES + 1`.  Returns either the early-exit status of a failed
acknowledgement read (left) or the final value of `response` (right),
together with the remaining script and the write log. -/
def ackLoop (command : List Byte) :
    Nat → Byte → Transport → (DeviceStatus ⊕ Byte) × Transport × List (List Byte)
  | 0, response, t => ackStepLast command response t
  | 1, response, t => ackStepLast command response t
  | fuel + 2, response, t =>
    if response = NAK then
      -- oceanic_veo250_send (write result discarded), then the 1-byte read
      match t.reads with
      | [] => (Sum.inl (EXITCODE (-1)), t, [command])
      | e :: rest =>
        let t1 : Transport := { t with reads := rest }
        if e.ret = 1 then
          let r := ackLoop command (fuel + 1) (e.data.headD response) t1
          (r.1, r.2.1, command :: r.2.2)
        else
          (Sum.inl (EXITCODE e.ret), t1, [command])
    else
      (Sum.inr response, t, [])

/-- `oceanic_veo250_transfer`: runs the acknowledgement loop, fails with
`DEVICE_STATUS_PROTOCOL` when the final response is not `ACK`, then reads
the `PACKET_SIZE + 2` answer frame and validates its checksum byte and its
terminator byte.  Returns (status, answer buffer, port, write log); the
answer buffer is the stack array `answer[]`, zero-initialized and filled by
a full read. -/
def oceanic_veo250_transfer (t : Transport) (command : List Byte) :
    DeviceStatus × List Byte × Transport × List (List Byte) :=
  match ackLoop command (MAXRETRIES + 1) NAK t with
  | (Sum.inl st, t1, ws) => (st, [], t1, ws)
  | (Sum.inr response, t1, ws) =>
    if response = ACK then
      match t1.reads with
      | [] => (EXITCODE (-1), [], t1, ws)
      | e :: rest =>
        let t2 : Transport := { t1 with reads := rest }
        if e.ret = ((PACKET_SIZE : Int) + 2) then
          let answer := (e.data ++ List.replicate (PACKET_SIZE + 2) 0).take (PACKET_SIZE + 2)
          let crc := answer.getD PACKET_SIZE 0
          let ccrc := checksum_add_uint8 (answer.take PACKET_SIZE) 0
          if crc = ccrc then
            if answer.getD (PACKET_SIZE + 1) 0 = NAK then
              (DeviceStatus.success, answer, t2, ws)
            else
              (DeviceStatus.protocol, answer, t2, ws)
          else
            (DeviceStatus.protocol, answer, t2, ws)
        else
          (EXITCODE e.ret, [], t2, ws)
    else
      (DeviceStatus.protocol, [], t1, ws)

/-- `oceanic_veo250_init`: send `{0x55, 0x00}`, read nothing. -/
def oceanic_veo250_init (t : Transport) :
    DeviceStatus × Transport × List (List Byte) :=
  let r := oceanic_veo250_send t [0x55, 0x00]
  if r.1 = DeviceStatus.success then (DeviceStatus.success, r.2.1, r.2.2)
  else (r.1, r.2.1, r.2.2)

/-- The expected 14-byte identification banner `"PPS--OK_V2.00\0"`. -/
def pps_banner : List Byte :=
  [0x50, 0x50, 0x53, 0x2D, 0x2D, 0x4F, 0x4B, 0x5F, 0x56, 0x32, 0x2E, 0x30, 0x30, 0x00]

/-- `oceanic_veo250_handshake`: send `{0x98, 0x00}`, read the 14-byte
banner into a zero-initialized buffer and compare it against
`pps_banner`. -/
def oceanic_veo250_handshake (t : Transport) :
    DeviceStatus × Transport × List (List Byte) :=
  let command : List Byte := [0x98, 0x00]
  match t.reads with
  | [] => (EXITCODE (-1), t, [command])
  | e :: rest =>
    let t1 : Transport := { t with reads := rest }
    if e.ret = 14 then
      let answer := (e.data ++ List.replicate 14 0).take 14
      if answer = pps_banner then (DeviceStatus.success, t1, [command])
      else (DeviceStatus.protocol, t1, [command])
    else
      (EXITCODE e.ret, t1, [command])

/-- The backend table a `device_t` points at: either
`oceanic_veo250_device_backend` or some other backend. -/
inductive Backend where
  | veo250
  | other
deriving DecidableEq, Repr

/-- A `device_t *`: NULL, or a device with a backend pointer and a port. -/
inductive DeviceHandle where
  | null
  | mk (backend : Backend) (port : Transport)
deriving DecidableEq, Repr

/-- `device_is_oceanic_veo250`: NULL handles fail, otherwise compare the
backend pointer against `&oceanic_veo250_device_backend`. -/
def device_is_oceanic_veo250 : DeviceHandle → Bool
  | DeviceHandle.null => false
  | DeviceHandle.mk b _ => b = Backend.veo250

/-- `oceanic_veo250_device_version`: type check, capacity check
(`size < PACKET_SIZE` is `DEVICE_STATUS_MEMORY`), one transfer with command
`{0x90, 0x00}`, then copy `PACKET_SIZE` payload bytes into the caller's
buffer.  Returns (status, handle, caller buffer, write log). -/
def oceanic_veo250_device_version (abstract : DeviceHandle) (data : List Byte)
    (size : Nat) : DeviceStatus × DeviceHandle × List Byte × List (List Byte) :=
  match abstract with
  | DeviceHandle.null => (DeviceStatus.typeMismatch, abstract, data, [])
  | DeviceHandle.mk b port =>
    if b = Backend.veo250 then
      if size < PACKET_SIZE then
        (DeviceStatus.memory, DeviceHandle.mk b port, data, [])
      else
        let r := oceanic_veo250_transfer port [0x90, 0x00]
        if r.1 = DeviceStatus.success then
          (DeviceStatus.success, DeviceHandle.mk b r.2.2.1,
            r.2.1.take PACKET_SIZE ++ data.drop PACKET_SIZE, r.2.2.2)
        else
          (r.1, DeviceHandle.mk b r.2.2.1, data, r.2.2.2)
    else
      (DeviceStatus.typeMismatch, abstract, data, [])

/-- The 6-byte read command built by `oceanic_veo250_device_read` for a
packet index: `{0x20, lo, hi, lo, hi, 0x00}` with the little-endian index
duplicated. -/
def readCmd (number : Nat) : List Byte :=
  [0x20, number % 256, number / 256 % 256, number % 256, number / 256 % 256, 0x00]

/-- The `while (nbytes < size)` loop of `oceanic_veo250_device_read`,
indexed by its iteration count (one per packet, `⌈size / PACKET_SIZE⌉`).
Each iteration transfers the packet whose index is
`address / PACKET_SIZE` and copies `PACKET_SIZE` payload bytes into the
caller's buffer; a failed transfer returns immediately.  Returns (status,
bytes written to the caller's buffer, port, write log). -/
def readLoop : Nat → Transport → Nat →
    DeviceStatus × List Byte × Transport × List (List Byte)
  | 0, t, _ => (DeviceStatus.success, [], t, [])
  | n + 1, t, address =>
    let number := address / PACKET_SIZE
    match oceanic_veo250_transfer t (readCmd number) with
    | (DeviceStatus.success, answer, t1, ws) =>
      let r := readLoop n t1 (address + PACKET_SIZE)
      (r.1, answer.take PACKET_SIZE ++ r.2.1, r.2.2.1, ws ++ r.2.2.2)
    | (st, _, t1, ws) => (st, [], t1, ws)

/-- `oceanic_veo250_device_read`: type check, then the packet loop.  The C
asserts `address % PACKET_SIZE == 0 && size % PACKET_SIZE == 0`; the
theorems carry these as hypotheses.  The caller's buffer keeps its old
contents past the bytes the loop wrote.  Returns (status, handle, caller
buffer, write log). -/
def oceanic_veo250_device_read (abstract : DeviceHandle) (address : Nat)
    (data : List Byte) (size : Nat) :
    DeviceStatus × DeviceHandle × List Byte × List (List Byte) :=
  match abstract with
  | DeviceHandle.null => (DeviceStatus.typeMismatch, abstract, data, [])
  | DeviceHandle.mk b port =>
    if b = Backend.veo250 then
      let r := readLoop ((size + PACKET_SIZE - 1) / PACKET_SIZE) port address
      (r.1, DeviceHandle.mk b r.2.2.1, r.2.1 ++ data.drop r.2.1.length, r.2.2.2)
    else
      (DeviceStatus.typeMismatch, abstract, data, [])

/-- `oceanic_veo250_device_dump`: type check, capacity check
(`size < MEMORY_SIZE` is `DEVICE_STATUS_ERROR`, before any I/O), then
`read(0, MEMORY_SIZE)`; on success `*result` is set to `MEMORY_SIZE`.  The
last component models the value written through the `result` pointer
(`none` when nothing is written). -/
def oceanic_veo250_device_dump (abstract : DeviceHandle) (data : List Byte)
    (size : Nat) :
    DeviceStatus × DeviceHandle × List Byte × List (List Byte) × Option Nat :=
  if device_is_oceanic_veo250 abstract = false then
    (DeviceStatus.typeMismatch, abstract, data, [], none)
  else if size < MEMORY_SIZE then
    (DeviceStatus.error, abstract, data, [], none)
  else
    let r := oceanic_veo250_device_read abstract 0x00 data MEMORY_SIZE
    if r.1 = DeviceStatus.success then
      (DeviceStatus.success, r.2.1, r.2.2.1, r.2.2.2, some MEMORY_SIZE)
    else
      (r.1, r.2.1, r.2.2.1, r.2.2.2, none)

/-- `oceanic_veo250_device_close`: type check, handshake with the result
discarded, then `serial_close` (failure is `DEVICE_STATUS_IO`); the device
memory is freed on both branches.  Returns (status, write log, whether the
transport release was attempted, whether the memory was freed). -/
def oceanic_veo250_device_close (abstract : DeviceHandle) :
    DeviceStatus × List (List Byte) × Bool × Bool :=
  match abstract with
  | DeviceHandle.null => (DeviceStatus.typeMismatch, [], false, false)
  | DeviceHandle.mk b port =>
    if b = Backend.veo250 then
      let r := oceanic_veo250_handshake port
      if port.closeOk = false then (DeviceStatus.io, r.2.2, true, true)
      else (DeviceStatus.success, r.2.2, true, true)
    else
      (DeviceStatus.typeMismatch, [], false, false)

/-! ## Helper lemmas -/

lemma handshake_writes (t : Transport) :
    (oceanic_veo250_handshake t).2.2 = [[0x98, 0x00]] := by
  rcases t with ⟨reads, w, c⟩
  cases reads with
  | nil => rfl
  | cons e rest =>
    simp only [oceanic_veo250_handshake]
    split_ifs <;> rfl

/-! ## Claim theorems -/

/-- C8: close() always performs the quiescing handshake exchange (its single
write is the handshake command) and then releases the transport resource
regardless of the handshake's outcome; the handshake result is never
propagated (the status depends only on whether the transport release
succeeds, `IoError` when it fails), and the session memory is freed on both
branches. -/
theorem veo250_close_always_releases (port : Transport) :
    oceanic_veo250_device_close (DeviceHandle.mk Backend.veo250 port)
      = ((if port.closeOk then DeviceStatus.success else DeviceStatus.io),
         [[0x98, 0x00]], true, true) := by
  rcases port with ⟨reads, w, c⟩
  simp only [oceanic_veo250_device_close]
  rw [handshake_writes]
  cases c <;> rfl

/-- C9 counterexample: a transport whose write/drain calls fail
(`writeOk = false`) still makes `oceanic_veo250_init` report success, because
`oceanic_veo250_send` discards the `serial_write` and `serial_drain`
results; the claim says init fails when the transport send/drain fails. -/
theorem veo250_init_write_failure_cex :
    oceanic_veo250_init ⟨[], false, true⟩
      = (DeviceStatus.success, ⟨[], false, true⟩, [[0x55, 0x00]]) := rfl

/-- C9 (amended): init() sends the fixed 2-byte command {0x55, 0x00}, reads
no response (the transport script is returned untouched), and always returns
success: the send helper does not inspect the write/drain results, so
transport send failures are never reported. -/
theorem veo250_init_always_success (t : Transport) :
    oceanic_veo250_init t = (DeviceStatus.success, t, [[0x55, 0x00]]) := rfl

/-- C10: every public session operation (version, read, dump, close) invoked
on a NULL handle or on a handle whose backend is not the VEO250 backend
returns `DEVICE_STATUS_TYPE_MISMATCH` with no transport I/O (empty write
log, handle and its port untouched) and the caller's buffer unmodified. -/
theorem veo250_type_mismatch_guard (h : DeviceHandle) (address : Nat)
    (data : List Byte) (size : Nat)
    (hnot : device_is_oceanic_veo250 h = false) :
    oceanic_veo250_device_version h data size
        = (DeviceStatus.typeMismatch, h, data, [])
    ∧ oceanic_veo250_device_read h address data size
        = (DeviceStatus.typeMismatch, h, data, [])
    ∧ oceanic_veo250_device_dump h data size
        = (DeviceStatus.typeMismatch, h, data, [], none)
    ∧ oceanic_veo250_device_close h
        = (DeviceStatus.typeMismatch, [], false, false) := by
  cases h with
  | null => exact ⟨rfl, rfl, rfl, rfl⟩
  | mk b port =>
    cases b with
    | veo250 => simp [device_is_oceanic_veo250] at hnot
    | other => exact ⟨rfl, rfl, rfl, rfl⟩

/-- C10 witness: the guard at the NULL handle. -/
theorem veo250_type_mismatch_guard_w :
    oceanic_veo250_device_version DeviceHandle.null [] 0
        = (DeviceStatus.typeMismatch, DeviceHandle.null, [], [])
    ∧ oceanic_veo250_device_read DeviceHandle.null 0 [] 0
        = (DeviceStatus.typeMismatch, DeviceHandle.null, [], [])
    ∧ oceanic_veo250_device_dump DeviceHandle.null [] 0
        = (DeviceStatus.typeMismatch, DeviceHandle.null, [], [], none)
    ∧ oceanic_veo250_device_close DeviceHandle.null
        = (DeviceStatus.typeMismatch, [], false, false) :=
  veo250_type_mismatch_guard DeviceHandle.null 0 [] 0 (by decide)

/-- C1: with a transport answering the acknowledgement read with NAK exactly
`k` times and then ACK (each read delivering exactly 1 byte), the transfer
leaves the acknowledgement loop with ACK (and hence proceeds to the answer
stage) iff `k ≤ MAXRETRIES`, after `k + 1` sends; and when every
acknowledgement is NAK the transfer returns `DEVICE_STATUS_PROTOCOL` after
exactly `MAXRETRIES + 1` sends. -/
theorem veo250_transfer_retry_bound (cmd : List Byte) (k : Nat)
    (rest : List ReadEvent) (w c : Bool) :
    (ackLoop cmd (MAXRETRIES + 1) NAK
        ⟨List.replicate k ⟨1, [NAK]⟩ ++ ⟨1, [ACK]⟩ :: rest, w, c⟩
      = (Sum.inr ACK, ⟨rest, w, c⟩, List.replicate (k + 1) cmd) ↔ k ≤ MAXRETRIES)
    ∧ ∀ m : Nat, MAXRETRIES + 1 ≤ m →
        oceanic_veo250_transfer ⟨List.replicate m ⟨1, [NAK]⟩, w, c⟩ cmd
          = (DeviceStatus.protocol, [],
             ⟨List.replicate (m - (MAXRETRIES + 1)) ⟨1, [NAK]⟩, w, c⟩,
             List.replicate (MAXRETRIES + 1) cmd) := by
  constructor
  · constructor
    · intro h
      by_contra hk
      have hk3 : 3 ≤ k := by simpa [MAXRETRIES] using hk
      obtain ⟨j, rfl⟩ : ∃ j, k = j + 3 := ⟨k - 3, by omega⟩
      have hstop : (ackLoop cmd (MAXRETRIES + 1) NAK
          ⟨List.replicate (j + 3) ⟨1, [NAK]⟩ ++ ⟨1, [ACK]⟩ :: rest, w, c⟩).1
            = Sum.inr NAK := rfl
      rw [h] at hstop
      simp [ACK, NAK] at hstop
    · intro hk
      have hk2 : k ≤ 2 := by simpa [MAXRETRIES] using hk
      interval_cases k <;> rfl
  · intro m hm
    have hm3 : 3 ≤ m := by simpa [MAXRETRIES] using hm
    obtain ⟨j, rfl⟩ : ∃ j, m = j + 3 := ⟨m - 3, by omega⟩
    rfl

/-- C1 witness: three straight NAKs exhaust the retries (3 sends, protocol
error), and two NAKs followed by an ACK pass the acknowledgement stage. -/
theorem veo250_transfer_retry_bound_w :
    (ackLoop [0x90, 0x00] (MAXRETRIES + 1) NAK
        ⟨List.replicate 2 ⟨1, [NAK]⟩ ++ ⟨1, [ACK]⟩ :: [], true, true⟩
      = (Sum.inr ACK, ⟨[], true, true⟩, List.replicate 3 [0x90, 0x00]))
    ∧ oceanic_veo250_transfer ⟨List.replicate 3 ⟨1, [NAK]⟩, true, true⟩ [0x90, 0x00]
      = (DeviceStatus.protocol, [], ⟨[], true, true⟩,
         List.replicate (MAXRETRIES + 1) [0x90, 0x00]) :=
  ⟨(veo250_transfer_retry_bound [0x90, 0x00] 2 [] true true).1.mpr (by decide),
   (veo250_transfer_retry_bound [0x90, 0x00] 2 [] true true).2 3 (by decide)⟩

/-- C2 counterexample: the device answers the first acknowledgement read
with the unrecognized byte 0x00 while an ACK and a valid answer frame are
still queued; the claim says any non-ACK byte counts as a retry and the
command is resent, but the code sends only once (one entry in the write
log), leaves the loop, and fails with `DEVICE_STATUS_PROTOCOL`, never
consuming the queued ACK. -/
theorem veo250_transfer_unrecognized_byte_cex :
    oceanic_veo250_transfer
        ⟨[⟨1, [0x00]⟩, ⟨1, [ACK]⟩,
          ⟨(PACKET_SIZE : Int) + 2, List.replicate PACKET_SIZE 0 ++ [0, NAK]⟩],
         true, true⟩ [0x90, 0x00]
      = (DeviceStatus.protocol, [],
         ⟨[⟨1, [ACK]⟩,
           ⟨(PACKET_SIZE : Int) + 2, List.replicate PACKET_SIZE 0 ++ [0, NAK]⟩],
          true, true⟩,
         [[0x90, 0x00]]) := by decide

/-- C2 (amended): only NAK counts as a retry.  An acknowledgement byte that
is neither ACK nor NAK ends the loop immediately: the transfer fails with
`DEVICE_STATUS_PROTOCOL` after that single send, and a NAK followed by such
a byte gives exactly one resend (two sends) before the same failure. -/
theorem veo250_transfer_nak_only_retry (cmd : List Byte) (b : Byte)
    (rest : List ReadEvent) (w c : Bool) (hb : b ≠ ACK) (hb2 : b ≠ NAK) :
    oceanic_veo250_transfer ⟨⟨1, [b]⟩ :: rest, w, c⟩ cmd
        = (DeviceStatus.protocol, [], ⟨rest, w, c⟩, [cmd])
    ∧ oceanic_veo250_transfer ⟨⟨1, [NAK]⟩ :: ⟨1, [b]⟩ :: rest, w, c⟩ cmd
        = (DeviceStatus.protocol, [], ⟨rest, w, c⟩, [cmd, cmd]) := by
  constructor
  · simp [oceanic_veo250_transfer, ackLoop, ackStepLast, MAXRETRIES, hb, hb2]
  · simp [oceanic_veo250_transfer, ackLoop, ackStepLast, MAXRETRIES, hb, hb2]

/-- C2 witness: the amended behavior at the unrecognized byte 0x00. -/
theorem veo250_transfer_nak_only_retry_w :
    oceanic_veo250_transfer ⟨⟨1, [0x00]⟩ :: [], true, true⟩ [0x90, 0x00]
        = (DeviceStatus.protocol, [], ⟨[], true, true⟩, [[0x90, 0x00]])
    ∧ oceanic_veo250_transfer ⟨⟨1, [NAK]⟩ :: ⟨1, [0x00]⟩ :: [], true, true⟩ [0x90, 0x00]
        = (DeviceStatus.protocol, [], ⟨[], true, true⟩,
           [[0x90, 0x00], [0x90, 0x00]]) :=
  veo250_transfer_nak_only_retry [0x90, 0x00] 0x00 [] true true
    (by decide) (by decide)

/-- C5: a transport read returning a count different from the requested
length is classified by `EXITCODE`: -1 is an `DEVICE_STATUS_IO` failure and
any other count a `DEVICE_STATUS_TIMEOUT`; this holds for the 1-byte
acknowledgement read (which aborts the transfer immediately, after a single
send, without counting a retry), for the `PACKET_SIZE + 2` answer read, and
for the 14-byte handshake banner read. -/
theorem veo250_exitcode_classification (cmd : List Byte) (r1 r2 r3 : Int)
    (d1 d2 d3 : List Byte) (rest : List ReadEvent) (w c : Bool) :
    (r1 ≠ 1 →
      oceanic_veo250_transfer ⟨⟨r1, d1⟩ :: rest, w, c⟩ cmd
        = ((if r1 = -1 then DeviceStatus.io else DeviceStatus.timeout), [],
           ⟨rest, w, c⟩, [cmd]))
    ∧ (r2 ≠ (PACKET_SIZE : Int) + 2 →
      oceanic_veo250_transfer ⟨⟨1, [ACK]⟩ :: ⟨r2, d2⟩ :: rest, w, c⟩ cmd
        = ((if r2 = -1 then DeviceStatus.io else DeviceStatus.timeout), [],
           ⟨rest, w, c⟩, [cmd]))
    ∧ (r3 ≠ 14 →
      oceanic_veo250_handshake ⟨⟨r3, d3⟩ :: rest, w, c⟩
        = ((if r3 = -1 then DeviceStatus.io else DeviceStatus.timeout),
           ⟨rest, w, c⟩, [[0x98, 0x00]])) := by
  refine ⟨fun h1 => ?_, fun h2 => ?_, fun h3 => ?_⟩
  · simp [oceanic_veo250_transfer, ackLoop, MAXRETRIES, EXITCODE, h1]
  · simp [oceanic_veo250_transfer, ackLoop, MAXRETRIES, EXITCODE, ACK, NAK, h2]
  · simp [oceanic_veo250_handshake, EXITCODE, h3]

/-- C5 witness: a failed acknowledgement read (-1) is an I/O error, a short
answer read (0 of 18 bytes) and a short banner read (5 of 14 bytes) are
timeouts. -/
theorem veo250_exitcode_classification_w :
    oceanic_veo250_transfer ⟨⟨-1, []⟩ :: [], true, true⟩ [0x90, 0x00]
        = ((if (-1 : Int) = -1 then DeviceStatus.io else DeviceStatus.timeout),
           [], ⟨[], true, true⟩, [[0x90, 0x00]])
    ∧ oceanic_veo250_transfer ⟨⟨1, [ACK]⟩ :: ⟨0, []⟩ :: [], true, true⟩ [0x90, 0x00]
        = ((if (0 : Int) = -1 then DeviceStatus.io else DeviceStatus.timeout),
           [], ⟨[], true, true⟩, [[0x90, 0x00]])
    ∧ oceanic_veo250_handshake ⟨⟨5, []⟩ :: [], true, true⟩
        = ((if (5 : Int) = -1 then DeviceStatus.io else DeviceStatus.timeout),
           ⟨[], true, true⟩, [[0x98, 0x00]]) :=
  ⟨(veo250_exitcode_classification [0x90, 0x00] (-1) 0 5 [] [] [] [] true true).1
      (by decide),
   (veo250_exitcode_classification [0x90, 0x00] (-1) 0 5 [] [] [] [] true true).2.1
      (by decide),
   (veo250_exitcode_classification [0x90, 0x00] (-1) 0 5 [] [] [] [] true true).2.2
      (by decide)⟩

lemma transfer_ack_frame (cmd frame : List Byte) (rest : List ReadEvent)
    (w c : Bool) (hlen : frame.length = PACKET_SIZE + 2) :
    oceanic_veo250_transfer
        ⟨⟨1, [ACK]⟩ :: ⟨(PACKET_SIZE : Int) + 2, frame⟩ :: rest, w, c⟩ cmd
      = (if frame.getD PACKET_SIZE 0
            = checksum_add_uint8 (frame.take PACKET_SIZE) 0 then
           if frame.getD (PACKET_SIZE + 1) 0 = NAK then
             (DeviceStatus.success, frame, ⟨rest, w, c⟩, [cmd])
           else (DeviceStatus.protocol, frame, ⟨rest, w, c⟩, [cmd])
         else (DeviceStatus.protocol, frame, ⟨rest, w, c⟩, [cmd])) := by
  have hans : (frame ++ List.replicate (PACKET_SIZE + 2) 0).take (PACKET_SIZE + 2)
      = frame := by
    conv_lhs => rw [← hlen]
    exact List.take_left _ _
  simp only [oceanic_veo250_transfer, ackLoop, ackStepLast, MAXRETRIES]
  norm_num [ACK, NAK, hans]

/-- C3: for an answer frame of `PACKET_SIZE + 2` bytes delivered after an
ACK: a checksum byte differing from the additive 8-bit checksum of the first
`PACKET_SIZE` bytes seeded with 0, or a terminator byte differing from the
NAK sentinel, makes the transfer return `DEVICE_STATUS_PROTOCOL`, never a
success; when both checks pass the transfer succeeds and its answer buffer
is the frame, whose first `PACKET_SIZE` bytes are the payload the callers
copy out. -/
theorem veo250_transfer_frame_validation (cmd frame : List Byte)
    (rest : List ReadEvent) (w c : Bool)
    (hlen : frame.length = PACKET_SIZE + 2) :
    ((frame.getD PACKET_SIZE 0 ≠ checksum_add_uint8 (frame.take PACKET_SIZE) 0
        ∨ frame.getD (PACKET_SIZE + 1) 0 ≠ NAK) →
      (oceanic_veo250_transfer
          ⟨⟨1, [ACK]⟩ :: ⟨(PACKET_SIZE : Int) + 2, frame⟩ :: rest, w, c⟩ cmd).1
        = DeviceStatus.protocol)
    ∧ (frame.getD PACKET_SIZE 0 = checksum_add_uint8 (frame.take PACKET_SIZE) 0 →
       frame.getD (PACKET_SIZE + 1) 0 = NAK →
      oceanic_veo250_transfer
          ⟨⟨1, [ACK]⟩ :: ⟨(PACKET_SIZE : Int) + 2, frame⟩ :: rest, w, c⟩ cmd
        = (DeviceStatus.success, frame, ⟨rest, w, c⟩, [cmd])) := by
  rw [transfer_ack_frame cmd frame rest w c hlen]
  constructor
  · intro h
    rcases h with h | h
    · rw [if_neg h]
    · by_cases hcrc : frame.getD PACKET_SIZE 0
          = checksum_add_uint8 (frame.take PACKET_SIZE) 0
      · rw [if_pos hcrc, if_neg h]
      · rw [if_neg hcrc]
  · intro hcrc hterm
    rw [if_pos hcrc, if_pos hterm]

/-- C3 witness: an all-zero payload with correct checksum 0 and NAK
terminator succeeds and returns the frame; flipping the checksum byte to 1
yields a protocol error. -/
theorem veo250_transfer_frame_validation_w :
    (oceanic_veo250_transfer
        ⟨⟨1, [ACK]⟩ :: ⟨(PACKET_SIZE : Int) + 2,
            List.replicate PACKET_SIZE 0 ++ [1, NAK]⟩ :: [], true, true⟩
        [0x90, 0x00]).1 = DeviceStatus.protocol
    ∧ oceanic_veo250_transfer
        ⟨⟨1, [ACK]⟩ :: ⟨(PACKET_SIZE : Int) + 2,
            List.replicate PACKET_SIZE 0 ++ [0, NAK]⟩ :: [], true, true⟩
        [0x90, 0x00]
      = (DeviceStatus.success, List.replicate PACKET_SIZE 0 ++ [0, NAK],
         ⟨[], true, true⟩, [[0x90, 0x00]]) :=
  ⟨(veo250_transfer_frame_validation [0x90, 0x00]
      (List.replicate PACKET_SIZE 0 ++ [1, NAK]) [] true true (by decide)).1
      (by decide),
   (veo250_transfer_frame_validation [0x90, 0x00]
      (List.replicate PACKET_SIZE 0 ++ [0, NAK]) [] true true (by decide)).2
      (by decide) (by decide)⟩

/-- A transport script on which every packet transfer succeeds at the first
attempt: for each packet payload, an immediate ACK followed by a full answer
frame carrying the payload, its correct checksum and the NAK terminator. -/
def goodScript : List (List Byte) → List ReadEvent
  | [] => []
  | p :: ps =>
    ⟨1, [ACK]⟩ :: ⟨(PACKET_SIZE : Int) + 2, p ++ [checksum_add_uint8 p 0, NAK]⟩
      :: goodScript ps

/-- Concatenation of packet payloads, in order. -/
def concatPackets : List (List Byte) → List Byte
  | [] => []
  | p :: ps => p ++ concatPackets ps

lemma goodFrame_fields (p : List Byte) (hp : p.length = PACKET_SIZE) :
    (p ++ [checksum_add_uint8 p 0, NAK]).getD PACKET_SIZE 0
        = checksum_add_uint8 p 0
    ∧ (p ++ [checksum_add_uint8 p 0, NAK]).getD (PACKET_SIZE + 1) 0 = NAK
    ∧ (p ++ [checksum_add_uint8 p 0, NAK]).take PACKET_SIZE = p := by
  refine ⟨?_, ?_, ?_⟩
  · rw [List.getD_append_right _ _ _ _ (le_of_eq hp), hp]
    simp
  · rw [List.getD_append_right _ _ _ _ (by omega), hp]
    simp
  · conv_lhs => rw [← hp]
    exact List.take_left _ _

lemma transfer_goodFrame (cmd p : List Byte) (rest : List ReadEvent)
    (w c : Bool) (hp : p.length = PACKET_SIZE) :
    oceanic_veo250_transfer
        ⟨⟨1, [ACK]⟩ :: ⟨(PACKET_SIZE : Int) + 2, p ++ [checksum_add_uint8 p 0, NAK]⟩
          :: rest, w, c⟩ cmd
      = (DeviceStatus.success, p ++ [checksum_add_uint8 p 0, NAK],
         ⟨rest, w, c⟩, [cmd]) := by
  obtain ⟨h1, h2, h3⟩ := goodFrame_fields p hp
  rw [transfer_ack_frame cmd _ rest w c (by simp [hp])]
  rw [h1, h2, h3, if_pos rfl, if_pos rfl]

lemma concatPackets_length (ps : List (List Byte))
    (h : ∀ p ∈ ps, p.length = PACKET_SIZE) :
    (concatPackets ps).length = PACKET_SIZE * ps.length := by
  induction ps with
  | nil => rfl
  | cons p ps ih =>
    have hp : p.length = PACKET_SIZE := h p (by simp)
    simp [concatPackets, hp, ih (fun q hq => h q (by simp [hq])),
      Nat.mul_succ, Nat.add_comm]

lemma range_map_readCmd (a n : Nat) :
    (List.range (n + 1)).map (fun j => readCmd (a + j))
      = readCmd a :: (List.range n).map fun j => readCmd (a + 1 + j) := by
  rw [List.range_succ_eq_map, List.map_cons, List.map_map]
  simp only [Nat.add_zero]
  congr 1
  exact List.map_congr_left fun j _ => congrArg readCmd (by omega)

lemma readLoop_goodScript (ps : List (List Byte))
    (h : ∀ p ∈ ps, p.length = PACKET_SIZE) (w c : Bool) : ∀ a : Nat,
    readLoop ps.length ⟨goodScript ps, w, c⟩ (PACKET_SIZE * a)
      = (DeviceStatus.success, concatPackets ps, ⟨[], w, c⟩,
         (List.range ps.length).map fun j => readCmd (a + j)) := by
  induction ps with
  | nil => intro a; rfl
  | cons p ps ih =>
    intro a
    have hp : p.length = PACKET_SIZE := h p (by simp)
    have hdiv : PACKET_SIZE * a / PACKET_SIZE = a :=
      Nat.mul_div_cancel_left a (by norm_num [PACKET_SIZE])
    have ihh := ih (fun q hq => h q (by simp [hq])) (a + 1)
    have haddr : PACKET_SIZE * a + PACKET_SIZE = PACKET_SIZE * (a + 1) := by ring
    simp only [readLoop, goodScript, List.length_cons, hdiv]
    rw [transfer_goodFrame (readCmd a) p (goodScript ps) w c hp]
    simp only [Nat.succ_eq_add_one, haddr, ihh, (goodFrame_fields p hp).2.2,
      concatPackets, range_map_readCmd]
    rfl

/-- C4: reading `size = PACKET_SIZE * (number of packets)` bytes from an
aligned address `PACKET_SIZE * a` over a transport on which every transfer
succeeds requests exactly the packet indices `a, a + 1, ...,
a + npackets - 1`, each exactly once in ascending order, each as the 6-byte
command `{0x20, lo, hi, lo, hi, 0x00}` with the little-endian index
duplicated; the read succeeds, consumes the whole script and the caller's
buffer starts with the concatenation of the payloads, which is exactly
`size` bytes long. -/
theorem veo250_read_packetization (ps : List (List Byte)) (a : Nat)
    (data : List Byte) (size : Nat) (w c : Bool)
    (h : ∀ p ∈ ps, p.length = PACKET_SIZE)
    (hsize : size = PACKET_SIZE * ps.length) :
    oceanic_veo250_device_read
        (DeviceHandle.mk Backend.veo250 ⟨goodScript ps, w, c⟩)
        (PACKET_SIZE * a) data size
      = (DeviceStatus.success, DeviceHandle.mk Backend.veo250 ⟨[], w, c⟩,
         concatPackets ps ++ data.drop size,
         (List.range ps.length).map fun j =>
           [0x20, (a + j) % 256, (a + j) / 256 % 256,
            (a + j) % 256, (a + j) / 256 % 256, 0x00])
      ∧ (concatPackets ps).length = size := by
  subst hsize
  have hlen := concatPackets_length ps h
  have hcount : (PACKET_SIZE * ps.length + PACKET_SIZE - 1) / PACKET_SIZE
      = ps.length := by
    simp only [PACKET_SIZE]
    omega
  refine ⟨?_, hlen⟩
  simp only [oceanic_veo250_device_read, hcount]
  rw [readLoop_goodScript ps h w c a]
  simp [hlen, readCmd]

/-- C4 witness: one 16-byte packet read from address `PACKET_SIZE * 2`
requests exactly packet index 2 with the duplicated little-endian
command. -/
theorem veo250_read_packetization_w :
    oceanic_veo250_device_read
        (DeviceHandle.mk Backend.veo250
          ⟨goodScript [List.replicate PACKET_SIZE 7], true, true⟩)
        (PACKET_SIZE * 2) [] (PACKET_SIZE * 1)
      = (DeviceStatus.success, DeviceHandle.mk Backend.veo250 ⟨[], true, true⟩,
         concatPackets [List.replicate PACKET_SIZE 7]
           ++ List.drop (PACKET_SIZE * 1) [],
         (List.range 1).map fun j =>
           [0x20, (2 + j) % 256, (2 + j) / 256 % 256,
            (2 + j) % 256, (2 + j) / 256 % 256, 0x00])
      ∧ (concatPackets [List.replicate PACKET_SIZE 7]).length = PACKET_SIZE * 1 :=
  veo250_read_packetization [List.replicate PACKET_SIZE 7] 2 [] (PACKET_SIZE * 1)
    true true (by decide) rfl

/-- C6: dump() into a buffer of capacity `size < MEMORY_SIZE` fails with
`DEVICE_STATUS_ERROR` (the capacity error of this operation) before any
transport I/O — empty write log, port and caller buffer untouched, result
pointer unwritten; for `size ≥ MEMORY_SIZE` it behaves exactly as
`read(0, MEMORY_SIZE)` and writes `MEMORY_SIZE` through the result pointer
exactly when that read succeeds. -/
theorem veo250_dump_sizing (port : Transport) (data : List Byte) (size : Nat) :
    (size < MEMORY_SIZE →
      oceanic_veo250_device_dump (DeviceHandle.mk Backend.veo250 port) data size
        = (DeviceStatus.error, DeviceHandle.mk Backend.veo250 port, data, [], none))
    ∧ (MEMORY_SIZE ≤ size →
      oceanic_veo250_device_dump (DeviceHandle.mk Backend.veo250 port) data size
        = ((oceanic_veo250_device_read (DeviceHandle.mk Backend.veo250 port)
              0 data MEMORY_SIZE).1,
           (oceanic_veo250_device_read (DeviceHandle.mk Backend.veo250 port)
              0 data MEMORY_SIZE).2.1,
           (oceanic_veo250_device_read (DeviceHandle.mk Backend.veo250 port)
              0 data MEMORY_SIZE).2.2.1,
           (oceanic_veo250_device_read (DeviceHandle.mk Backend.veo250 port)
              0 data MEMORY_SIZE).2.2.2,
           if (oceanic_veo250_device_read (DeviceHandle.mk Backend.veo250 port)
                 0 data MEMORY_SIZE).1 = DeviceStatus.success
           then some MEMORY_SIZE else none)) := by
  constructor
  · intro hlt
    simp [oceanic_veo250_device_dump, device_is_oceanic_veo250, hlt]
  · intro hge
    simp only [oceanic_veo250_device_dump, device_is_oceanic_veo250]
    rw [if_neg (by simp), if_neg (Nat.not_lt.mpr hge)]
    split_ifs with hs
    · rw [hs]
    · rfl

/-- C6 witness: a zero-capacity buffer is rejected up front; a buffer of
exactly `MEMORY_SIZE` forwards to `read(0, MEMORY_SIZE)`. -/
theorem veo250_dump_sizing_w :
    oceanic_veo250_device_dump (DeviceHandle.mk Backend.veo250 ⟨[], true, true⟩)
        [] 0
      = (DeviceStatus.error, DeviceHandle.mk Backend.veo250 ⟨[], true, true⟩,
         [], [], none)
    ∧ oceanic_veo250_device_dump (DeviceHandle.mk Backend.veo250 ⟨[], true, true⟩)
        [] MEMORY_SIZE
      = ((oceanic_veo250_device_read
            (DeviceHandle.mk Backend.veo250 ⟨[], true, true⟩) 0 [] MEMORY_SIZE).1,
         (oceanic_veo250_device_read
            (DeviceHandle.mk Backend.veo250 ⟨[], true, true⟩) 0 [] MEMORY_SIZE).2.1,
         (oceanic_veo250_device_read
            (DeviceHandle.mk Backend.veo250 ⟨[], true, true⟩) 0 [] MEMORY_SIZE).2.2.1,
         (oceanic_veo250_device_read
            (DeviceHandle.mk Backend.veo250 ⟨[], true, true⟩) 0 [] MEMORY_SIZE).2.2.2,
         if (oceanic_veo250_device_read
               (DeviceHandle.mk Backend.veo250 ⟨[], true, true⟩) 0 []
               MEMORY_SIZE).1 = DeviceStatus.success
         then some MEMORY_SIZE else none) :=
  ⟨(veo250_dump_sizing ⟨[], true, true⟩ [] 0).1 (by decide),
   (veo250_dump_sizing ⟨[], true, true⟩ [] MEMORY_SIZE).2 (le_refl _)⟩

lemma readLoop_fail (bad : List ReadEvent) (e : DeviceStatus) (w c : Bool)
    (he : e ≠ DeviceStatus.success) :
    ∀ (ps : List (List Byte)), (∀ p ∈ ps, p.length = PACKET_SIZE) →
    ∀ a K : Nat, ps.length < K →
    (oceanic_veo250_transfer ⟨bad, w, c⟩ (readCmd (a + ps.length))).1 = e →
    (readLoop K ⟨goodScript ps ++ bad, w, c⟩ (PACKET_SIZE * a)).1 = e := by
  intro ps
  induction ps with
  | nil =>
    intro _ a K hK hbad
    obtain ⟨K1, rfl⟩ : ∃ K1, K = K1 + 1 := ⟨K - 1, by omega⟩
    have hdiv : PACKET_SIZE * a / PACKET_SIZE = a :=
      Nat.mul_div_cancel_left a (by norm_num [PACKET_SIZE])
    simp only [List.length_nil, Nat.add_zero] at hbad
    simp only [goodScript, List.nil_append, readLoop, hdiv]
    rcases hx : oceanic_veo250_transfer ⟨bad, w, c⟩ (readCmd a) with ⟨st, ans, t1, ws⟩
    rw [hx] at hbad
    cases st <;> simp_all
  | cons p ps ih =>
    intro h a K hK hbad
    obtain ⟨K1, rfl⟩ : ∃ K1, K = K1 + 1 := ⟨K - 1, by omega⟩
    have hp : p.length = PACKET_SIZE := h p (by simp)
    have hdiv : PACKET_SIZE * a / PACKET_SIZE = a :=
      Nat.mul_div_cancel_left a (by norm_num [PACKET_SIZE])
    simp only [goodScript, List.cons_append, readLoop, hdiv]
    rw [transfer_goodFrame (readCmd a) p (goodScript ps ++ bad) w c hp]
    show (readLoop K1 ⟨goodScript ps ++ bad, w, c⟩
        (PACKET_SIZE * a + PACKET_SIZE)).1 = e
    rw [show PACKET_SIZE * a + PACKET_SIZE = PACKET_SIZE * (a + 1) from by ring]
    apply ih (fun q hq => h q (by simp [hq])) (a + 1) K1 (by simp at hK; omega)
    rw [show a + 1 + ps.length = a + (p :: ps).length from by simp; omega]
    exact hbad

/-- C7: if within `read(address, size)` the transfer of a later packet fails
with status `e` (after some packets already succeeded), the whole read
returns `e`, never success — from the caller's perspective no partial
result is exposed, since the status is the operation's only success
indicator. -/
theorem veo250_read_error_propagation (ps : List (List Byte))
    (bad : List ReadEvent) (e : DeviceStatus) (a K : Nat) (data : List Byte)
    (w c : Bool) (h : ∀ p ∈ ps, p.length = PACKET_SIZE) (hK : ps.length < K)
    (hbad : (oceanic_veo250_transfer ⟨bad, w, c⟩ (readCmd (a + ps.length))).1 = e)
    (he : e ≠ DeviceStatus.success) :
    (oceanic_veo250_device_read
        (DeviceHandle.mk Backend.veo250 ⟨goodScript ps ++ bad, w, c⟩)
        (PACKET_SIZE * a) data (PACKET_SIZE * K)).1 = e
    ∧ (oceanic_veo250_device_read
        (DeviceHandle.mk Backend.veo250 ⟨goodScript ps ++ bad, w, c⟩)
        (PACKET_SIZE * a) data (PACKET_SIZE * K)).1 ≠ DeviceStatus.success := by
  have hcount : (PACKET_SIZE * K + PACKET_SIZE - 1) / PACKET_SIZE = K := by
    simp only [PACKET_SIZE]
    omega
  have hread : (oceanic_veo250_device_read
      (DeviceHandle.mk Backend.veo250 ⟨goodScript ps ++ bad, w, c⟩)
      (PACKET_SIZE * a) data (PACKET_SIZE * K)).1
      = (readLoop K ⟨goodScript ps ++ bad, w, c⟩ (PACKET_SIZE * a)).1 := by
    simp [oceanic_veo250_device_read, hcount]
  have hmain := readLoop_fail bad e w c he ps h a K hK hbad
  exact ⟨by rw [hread]; exact hmain, by rw [hread, hmain]; exact he⟩

/-- C7 witness: the third of five requested packets fails (unrecognized
acknowledgement byte, a protocol error) after two good packets; the read
reports the protocol error, not success. -/
theorem veo250_read_error_propagation_w :
    (oceanic_veo250_device_read
        (DeviceHandle.mk Backend.veo250
          ⟨goodScript [List.replicate PACKET_SIZE 0, List.replicate PACKET_SIZE 1]
             ++ [⟨1, [0x00]⟩], true, true⟩)
        (PACKET_SIZE * 0) [] (PACKET_SIZE * 5)).1 = DeviceStatus.protocol
    ∧ (oceanic_veo250_device_read
        (DeviceHandle.mk Backend.veo250
          ⟨goodScript [List.replicate PACKET_SIZE 0, List.replicate PACKET_SIZE 1]
             ++ [⟨1, [0x00]⟩], true, true⟩)
        (PACKET_SIZE * 0) [] (PACKET_SIZE * 5)).1 ≠ DeviceStatus.success :=
  veo250_read_error_propagation
    [List.replicate PACKET_SIZE 0, List.replicate PACKET_SIZE 1]
    [⟨1, [0x00]⟩] DeviceStatus.protocol 0 5 [] true true
    (by decide) (by decide) (by decide) (by decide)
